import Mathlib

/-!
Shallow embedding of the auction-crawler core pipeline
(`src/auction-crawler/src/pipeline.py`, `src/auction-crawler/src/fetcher.py`,
`src/auction-crawler/src/models.py`, `src/auction-crawler/utils.py`).

Network effects are supplied by environments: the outcome of each fetch call is
a parameter of the model.  Delays are recorded symbolically in an event trace
(`Delay` names the configured durations; `Delay.twice d` is the code's `d * 2`).
Python lists become `List`, `set` becomes `Finset`, dict page-info payloads
become `PageInfoDict` (a `none` field models an absent key), Python exceptions
become the `FetchExc` sum carried by `Except`, and Python's floor division `//`
becomes `Int.fdiv`.
-/

namespace AuctionCrawler

/-- Auction records are opaque to the pipeline; we model each record by a tag. -/
abbrev Item := Nat

/-- Substring test on character lists: Python's `needle in hay`. -/
def listContainsSub (needle : List Char) : List Char → Bool
  | [] => needle.isEmpty
  | c :: rest => needle.isPrefixOf (c :: rest) || listContainsSub needle rest

/-- Python's `needle in hay` for strings. -/
def strContains (hay needle : String) : Bool :=
  listContainsSub needle.toList hay.toList

/-- The block sentinel test used throughout the source:
`'차단' in s or '비정상적인 접속' in s`. -/
def containsSentinel (s : String) : Bool :=
  strContains s "차단" || strContains s "비정상적인 접속"

/-- Pydantic `PageInfo` model (`models.py` lines 13-25). -/
structure PageInfo where
  pageNo : Int := 1
  pageSize : Int := 40
  totalYn : String := "Y"
  totalCnt : Option Int := none
deriving DecidableEq

/-- `PageInfo.total_pages` (`models.py` lines 20-25): returns 0 when `totalCnt`
is `None` or 0, else `(totalCnt + pageSize - 1) // pageSize`. -/
def PageInfo.total_pages (pi : PageInfo) : Int :=
  match pi.totalCnt with
  | none => 0
  | some t => if t = 0 then 0 else (t + pi.pageSize - 1).fdiv pi.pageSize

/-- The raw `dma_pageInfo` dict of an API response as the pipeline reads it:
a `none` field models a missing key (`'totalCnt' not in page_info`, `KeyError`
on `page_info['pageSize']`).  An empty dict is one with `totalCnt = none`. -/
structure PageInfoDict where
  totalCnt : Option Int := none
  pageSize : Option Int := none
deriving DecidableEq

/-- `CrawlResult` (`models.py` lines 79-93).  `auctions = none` models the
Python `None` default. -/
structure CrawlResult where
  page_num : Nat
  auctions : Option (List Item) := none
  page_info : PageInfoDict := {}
  is_blocked : Bool := false
  error : Option String := none
deriving DecidableEq

/-- `CrawlResult.is_success`: `auctions is not None and len(auctions) > 0`. -/
def CrawlResult.is_success (r : CrawlResult) : Bool :=
  match r.auctions with
  | some l => !l.isEmpty
  | none => false

/-- `CrawlResult.auction_count`: `len(auctions) if auctions else 0`. -/
def CrawlResult.auction_count (r : CrawlResult) : Nat :=
  match r.auctions with
  | some l => l.length
  | none => 0

/-- The exceptions distinguished by the `except` clauses of the source, in the
order they are matched by `fetch_page_safe`: `asyncio.TimeoutError`,
`aiohttp.ClientError`, then any other `Exception` with its `str(e)` text. -/
inductive FetchExc where
  | timeout
  | clientError (msg : String)
  | other (msg : String)
deriving DecidableEq

/-- Python's `str(e)` for the modelled exceptions (`str` of a bare
`asyncio.TimeoutError` is empty). -/
def excMsg : FetchExc → String
  | .timeout => ""
  | .clientError m => m
  | .other m => m

/-- Outcome of one call to `fetch_auction_page`: either `(auctions, page_info)`
or a raised exception. -/
abbrev FetchOutcome := Except FetchExc (List Item × PageInfoDict)

/-- The fields of an API response body consulted by `is_blocked_response`
(`fetcher.py` lines 32-35) and `fetch_auction_page`. -/
structure ApiResponse where
  error : Option String := none
  message : Option String := none
  auctions : List Item := []
  pageInfo : PageInfoDict := {}
deriving DecidableEq

/-- Python's `result.get('error') or result.get('message', '')`: `error` wins
unless it is falsy (absent or empty). -/
def responseErrorMessage (r : ApiResponse) : String :=
  match r.error with
  | some e => if e = "" then r.message.getD "" else e
  | none => r.message.getD ""

/-- `is_blocked_response` (`fetcher.py` lines 32-35). -/
def is_blocked_response (r : ApiResponse) : Bool :=
  containsSentinel (responseErrorMessage r)

/-- `fetch_auction_page` (`fetcher.py` lines 38-90) on a response that arrived:
raises `Exception(f"API 차단: {error_message}")` on a blocked payload, else
returns `(auctions, page_info)`.  Transport-level failures are supplied by the
environment as `FetchExc` values directly. -/
def fetch_auction_page (r : ApiResponse) : FetchOutcome :=
  if is_blocked_response r then
    .error (.other ("API 차단: " ++ responseErrorMessage r))
  else
    .ok (r.auctions, r.pageInfo)

/-- `fetch_page_safe` (`fetcher.py` lines 93-124), as a function of the outcome
of its single underlying `fetch_auction_page` call.  Every exception is
converted into a `CrawlResult`, matching the source's `except` clauses in
order. -/
def fetch_page_safe (page_num : Nat) (o : FetchOutcome) : CrawlResult :=
  match o with
  | .ok (auctions, page_info) =>
      { page_num := page_num, auctions := some auctions, page_info := page_info }
  | .error .timeout =>
      { page_num := page_num, auctions := some [], error := some "timeout" }
  | .error (.clientError m) =>
      { page_num := page_num, auctions := some [], error := some m }
  | .error (.other m) =>
      if containsSentinel m then
        { page_num := page_num, is_blocked := true, error := some m }
      else
        { page_num := page_num, auctions := some [], error := some m }

/-- One step of `retry_with_backoff`'s loop (`utils.py` lines 44-55), starting
at a given attempt index.  Returns the final outcome, the number of times the
wrapped operation was invoked, and the list of backoff delays slept. -/
def retryGo {ε α : Type} (op : Nat → Except ε α) (base_delay max_delay : ℚ)
    (max_retries : Nat) (attempt : Nat) : Except ε α × Nat × List ℚ :=
  match op attempt with
  | .ok a => (.ok a, 1, [])
  | .error e =>
      if h : attempt < max_retries then
        let d := min (base_delay * 2 ^ attempt) max_delay
        let r := retryGo op base_delay max_delay max_retries (attempt + 1)
        (r.1, r.2.1 + 1, d :: r.2.2)
      else
        (.error e, 1, [])
termination_by max_retries - attempt
decreasing_by omega

/-- `retry_with_backoff` (`utils.py` lines 20-61): up to `max_retries`
additional attempts after the first, with delay
`min(base_delay * 2 ** attempt, max_delay)` slept after failed attempt
`attempt` (0-indexed). -/
def retry_with_backoff {ε α : Type} (op : Nat → Except ε α) (max_retries : Nat)
    (base_delay max_delay : ℚ) : Except ε α × Nat × List ℚ :=
  retryGo op base_delay max_delay max_retries 0

/-- Symbolic sleep durations: the configured settings values, and
`Delay.twice d` for the code's `d * 2`. -/
inductive Delay where
  | requestDelay
  | batchDelay
  | retryDelay
  | blockedWait
  | twice (d : Delay)
deriving DecidableEq

/-- Observable actions of a run: a non-blocking sleep, or one page fetch
reaching the network layer. -/
inductive Event where
  | sleep (d : Delay)
  | fetch (page : Nat)
deriving DecidableEq

/-- The configuration consumed by the pipeline (delays are symbolic, so only
the numeric knobs remain). -/
structure CrawlSettings where
  page_size : Nat
  concurrency_limit : Nat
  max_retries : Nat
deriving DecidableEq

/-- `CrawlPipeline`'s mutable fields (`pipeline.py` lines 24-29) plus the
`_total_cnt` attribute (default 0, `pipeline.py` line 213). -/
structure CrawlState where
  all_auctions : List Item
  successful_pages : Finset Nat
  failed_pages : List Nat
  blocked_pages : List Nat
  total_cnt : Int
deriving DecidableEq

/-- The state constructed by `CrawlPipeline.__init__`. -/
def initState : CrawlState := ⟨[], ∅, [], [], 0⟩

/-- All page numbers recorded anywhere in the state. -/
def pagesOf (s : CrawlState) : Finset Nat :=
  s.successful_pages ∪ s.failed_pages.toFinset ∪ s.blocked_pages.toFinset

/-- `CrawlPipeline._process_result` (`pipeline.py` lines 233-243). -/
def process_result (s : CrawlState) (result : CrawlResult) : CrawlState :=
  if result.is_blocked then
    { s with blocked_pages := s.blocked_pages ++ [result.page_num] }
  else if result.is_success then
    { s with all_auctions := s.all_auctions ++ result.auctions.getD [],
             successful_pages := insert result.page_num s.successful_pages }
  else
    { s with failed_pages := s.failed_pages ++ [result.page_num] }

/-- Loop body of `CrawlPipeline._fetch_sequential` (`pipeline.py` lines
91-111), carrying the 1-based index of `enumerate(pages, 1)`. -/
def seqGo (sweep : Nat → FetchOutcome) (total : Nat) :
    Nat → List Nat → CrawlState → CrawlState × List Event
  | _, [], s => (s, [])
  | idx, page :: rest, s =>
      let r := fetch_page_safe page (sweep page)
      let s1 := process_result s r
      let ev1 := [Event.sleep Delay.requestDelay, Event.fetch page]
        ++ (if r.is_blocked then [Event.sleep Delay.blockedWait] else [])
        ++ (if idx % 10 = 0 ∧ idx < total then [Event.sleep Delay.batchDelay] else [])
      let rec1 := seqGo sweep total (idx + 1) rest s1
      (rec1.1, ev1 ++ rec1.2)

/-- `CrawlPipeline._fetch_sequential`.  The leading `Event.sleep requestDelay`
of each page is the sleep performed inside `fetch_page_safe`. -/
def fetch_sequential (sweep : Nat → FetchOutcome) (pages : List Nat)
    (s : CrawlState) : CrawlState × List Event :=
  seqGo sweep pages.length 1 pages s

/-- Processing of one batch (`pipeline.py` lines 128-160): results are consumed
in completion order; after a blocked result the remaining tasks are cancelled
and never processed.  Returns the state, the `batch_blocked` flag, and the
fetch events of the results that were actually consumed. -/
def run_batch (sweep : Nat → FetchOutcome) :
    List Nat → CrawlState → CrawlState × Bool × List Event
  | [], s => (s, false, [])
  | page :: rest, s =>
      let r := fetch_page_safe page (sweep page)
      let s1 := process_result s r
      if r.is_blocked then (s1, true, [Event.fetch page])
      else
        let rec1 := run_batch sweep rest s1
        (rec1.1, rec1.2.1, Event.fetch page :: rec1.2.2)

/-- `pages[batch_start:batch_start+batch_size]` for
`batch_start in range(0, len(pages), batch_size)`. -/
def chunksOf (n : Nat) (l : List Nat) : List (List Nat) :=
  (List.range ((l.length + n - 1) / n)).map fun i => (l.drop (i * n)).take n

/-- Batch loop of `CrawlPipeline._fetch_batched` (`pipeline.py` lines 121-170):
cooldown once per blocked batch, inter-batch delay whenever pages remain. -/
def batchGo (sweep : Nat → FetchOutcome) (complOrder : List Nat → List Nat) :
    List (List Nat) → CrawlState → CrawlState × List Event
  | [], s => (s, [])
  | b :: rest, s =>
      let rb := run_batch sweep (complOrder b) s
      let ev1 := rb.2.2
        ++ (if rb.2.1 then [Event.sleep Delay.blockedWait] else [])
        ++ (if rest.isEmpty then [] else [Event.sleep Delay.batchDelay])
      let rec1 := batchGo sweep complOrder rest rb.1
      (rec1.1, ev1 ++ rec1.2)

/-- `CrawlPipeline._fetch_batched` (`pipeline.py` lines 113-170) with batch
size `concurrency * 3`.  `complOrder` is the environment's completion order
(`asyncio.as_completed`) for each batch. -/
def fetch_batched (st : CrawlSettings) (sweep : Nat → FetchOutcome)
    (complOrder : List Nat → List Nat) (pages : List Nat) (s : CrawlState) :
    CrawlState × List Event :=
  batchGo sweep complOrder (chunksOf (st.concurrency_limit * 3) pages) s

/-- Loop body of `CrawlPipeline._retry_failed_pages` (`pipeline.py` lines
186-203): sleep double the request delay, fetch, extend/insert on non-empty
auctions, and on a blocked exception sleep double the retry delay. -/
def retryGoPages (env : Nat → FetchOutcome) :
    List Nat → CrawlState → CrawlState × List Event
  | [], s => (s, [])
  | page :: rest, s =>
      let pre := [Event.sleep (Delay.twice Delay.requestDelay), Event.fetch page]
      let step : CrawlState × List Event :=
        match env page with
        | .ok (auctions, _) =>
            if auctions.isEmpty then (s, [])
            else
              ({ s with all_auctions := s.all_auctions ++ auctions,
                        successful_pages := insert page s.successful_pages }, [])
        | .error e =>
            if containsSentinel (excMsg e) then
              (s, [Event.sleep (Delay.twice Delay.retryDelay)])
            else (s, [])
      let rec1 := retryGoPages env rest step.1
      (rec1.1, pre ++ step.2 ++ rec1.2)

/-- `CrawlPipeline._retry_failed_pages` (`pipeline.py` lines 172-203): a single
extra pass over `failed_pages + blocked_pages`, preceded by the retry delay. -/
def retry_failed_pages (env : Nat → FetchOutcome) (s : CrawlState) :
    CrawlState × List Event :=
  let retry_pages := s.failed_pages ++ s.blocked_pages
  if retry_pages.isEmpty then (s, [])
  else
    let r := retryGoPages env retry_pages s
    (r.1, Event.sleep Delay.retryDelay :: r.2)

/-- `CrawlPipeline._validate_and_save` (`pipeline.py` lines 205-231): the
count comparison only logs; `save_auction_data` is called with `all_auctions`
unless that list is empty, in which case the method returns without saving.
The returned list holds the argument of each `save` call made. -/
def validate_and_save (s : CrawlState) : List (List Item) :=
  if s.all_auctions.isEmpty then [] else [s.all_auctions]

/-- The page-count formula of `CrawlPipeline._fetch_first_page`
(`pipeline.py` line 69): `(total_cnt + page_size - 1) // page_size`. -/
def plannerTotalPages (total_cnt page_size : Int) : Int :=
  (total_cnt + page_size - 1).fdiv page_size

/-- `CrawlPipeline._fetch_first_page` (`pipeline.py` lines 53-79).  Returns the
derived page count (or `none` on early exit), the updated state, and the
`save` calls made.  A missing `pageSize` key or a zero `page_size` raises
inside the `try` and is caught, leaving the state unchanged. -/
def fetch_first_page (firstPage : FetchOutcome) (s : CrawlState) :
    Option Int × CrawlState × List (List Item) :=
  match firstPage with
  | .error _ => (none, s, [])
  | .ok (auctions, page_info) =>
      match page_info.totalCnt with
      | none =>
          if auctions.isEmpty then (none, s, [])
          else
            let s1 := { s with all_auctions := s.all_auctions ++ auctions }
            (none, s1, [s1.all_auctions])
      | some total_cnt =>
          match page_info.pageSize with
          | none => (none, s, [])
          | some page_size =>
              if page_size = 0 then (none, s, [])
              else
                let s1 := { s with
                  all_auctions := s.all_auctions ++ auctions,
                  successful_pages := insert 1 s.successful_pages,
                  total_cnt := total_cnt }
                (some (plannerTotalPages total_cnt page_size), s1, [])

/-- Output of one whole run: final state, the arguments of the `save` calls
made, and the event trace. -/
structure RunOut where
  state : CrawlState
  saves : List (List Item)
  events : List Event
deriving DecidableEq

/-- `CrawlPipeline.run` (`pipeline.py` lines 31-51).  The environments supply
the outcome of the page-1 fetch, of each main-sweep `fetch_page_safe` call, the
completion order of each batch, and the outcome of each retry-pass fetch. -/
def runPipeline (st : CrawlSettings) (firstPage : FetchOutcome)
    (sweep : Nat → FetchOutcome) (complOrder : List Nat → List Nat)
    (retryFetch : Nat → FetchOutcome) : RunOut :=
  match fetch_first_page firstPage initState with
  | (none, s, saves) => ⟨s, saves, [Event.fetch 1]⟩
  | (some total_pages, s, _) =>
      let sweepOut :=
        if 1 < total_pages then
          let pages := List.range' 2 (total_pages - 1).toNat
          if st.concurrency_limit = 1 then fetch_sequential sweep pages s
          else fetch_batched st sweep complOrder pages s
        else (s, [])
      let retryOut := retry_failed_pages retryFetch sweepOut.1
      ⟨retryOut.1, validate_and_save retryOut.1,
        Event.fetch 1 :: (sweepOut.2 ++ retryOut.2)⟩

/-- Observation: a retry-pass fetch outcome that counts as success
(`if auctions:` non-empty). -/
def retryOk : FetchOutcome → Bool
  | .ok (a, _) => !a.isEmpty
  | .error _ => false

/-- Observation: the items a retry-pass fetch outcome contributes. -/
def retryItems : FetchOutcome → List Item
  | .ok (a, _) => a
  | .error _ => []

/-- Observation: a retry-pass fetch outcome whose exception text carries the
block sentinel (the still-blocked branch of the retry loop). -/
def retryBlockedExc : FetchOutcome → Bool
  | .ok _ => false
  | .error e => containsSentinel (excMsg e)

/-- Modelled from the spec (section 7 Propagation, claim C5): the inline-retry
discipline the spec ascribes to the main sweep — if some attempt within the
configured `max_retries` bound would succeed with items, the page is not
demoted to `failedPages`.  `attEnv page k` is the outcome fetching `page`
would have on attempt `k`; the code's single attempt is attempt 0. -/
def specClaimInlineRetry (st : CrawlSettings) (attEnv : Nat → Nat → FetchOutcome)
    (pages : List Nat) (s : CrawlState) : Prop :=
  ∀ p ∈ pages,
    (∃ k ≤ st.max_retries, ∃ items page_info,
        attEnv p k = .ok (items, page_info) ∧ items ≠ []) →
    p ∉ (fetch_sequential (fun q => attEnv q 0) pages s).1.failed_pages

/-! Helper lemmas. -/

theorem listContainsSub_nil (l : List Char) : listContainsSub [] l = true := by
  cases l <;> simp [listContainsSub, List.isPrefixOf]

theorem isPrefixOf_append_left (n a b : List Char) (h : n.isPrefixOf a = true) :
    n.isPrefixOf (a ++ b) = true := by
  induction n generalizing a with
  | nil => simp [List.isPrefixOf]
  | cons x xs ih =>
      cases a with
      | nil => simp [List.isPrefixOf] at h
      | cons y ys =>
          simp only [List.isPrefixOf, Bool.and_eq_true] at h
          simp only [List.cons_append, List.isPrefixOf, Bool.and_eq_true]
          exact ⟨h.1, ih ys h.2⟩

theorem listContainsSub_append_left (n a b : List Char)
    (h : listContainsSub n a = true) : listContainsSub n (a ++ b) = true := by
  induction a with
  | nil =>
      simp only [listContainsSub, List.isEmpty_iff] at h
      subst h
      exact listContainsSub_nil b
  | cons c rest ih =>
      simp only [listContainsSub, Bool.or_eq_true] at h
      rcases h with h | h
      · simp only [List.cons_append, listContainsSub, Bool.or_eq_true]
        exact Or.inl (isPrefixOf_append_left n (c :: rest) b h)
      · simp only [List.cons_append, listContainsSub, Bool.or_eq_true]
        exact Or.inr (ih h)

theorem containsSentinel_append_left (s t : String)
    (h : containsSentinel s = true) : containsSentinel (s ++ t) = true := by
  have htl : (s ++ t).toList = s.toList ++ t.toList := rfl
  simp only [containsSentinel, strContains, Bool.or_eq_true] at h ⊢
  rw [htl]
  rcases h with h | h
  · exact Or.inl (listContainsSub_append_left _ _ _ h)
  · exact Or.inr (listContainsSub_append_left _ _ _ h)

theorem fetch_page_safe_page_num (p : Nat) (o : FetchOutcome) :
    (fetch_page_safe p o).page_num = p := by
  rcases o with ⟨e⟩ | ⟨a, pi⟩
  · rcases e with _ | m | m
    · rfl
    · rfl
    · unfold fetch_page_safe
      split
      any_goals rfl
      split <;> rfl
  · rfl

theorem mem_pagesOf (a : Nat) (s : CrawlState) :
    a ∈ pagesOf s ↔
      a ∈ s.successful_pages ∨ a ∈ s.failed_pages ∨ a ∈ s.blocked_pages := by
  simp [pagesOf, or_assoc]

theorem pagesOf_process (s : CrawlState) (r : CrawlResult) :
    pagesOf (process_result s r) = insert r.page_num (pagesOf s) := by
  unfold process_result
  split
  · ext a
    simp [pagesOf]
    try tauto
  · split
    · ext a
      simp [pagesOf]
      try tauto
    · ext a
      simp [pagesOf]
      try tauto

theorem process_result_failed_blocked (s : CrawlState) (r : CrawlResult) :
    ((process_result s r).failed_pages = s.failed_pages ∧
      (process_result s r).blocked_pages = s.blocked_pages ++ [r.page_num]) ∨
    ((process_result s r).failed_pages = s.failed_pages ∧
      (process_result s r).blocked_pages = s.blocked_pages) ∨
    ((process_result s r).failed_pages = s.failed_pages ++ [r.page_num] ∧
      (process_result s r).blocked_pages = s.blocked_pages) := by
  unfold process_result
  split
  · exact Or.inl ⟨rfl, rfl⟩
  · split
    · exact Or.inr (Or.inl ⟨rfl, rfl⟩)
    · exact Or.inr (Or.inr ⟨rfl, rfl⟩)

theorem nodup_append_singleton (l : List Nat) (p : Nat)
    (h : l.Nodup) (hp : p ∉ l) : (l ++ [p]).Nodup := by
  rw [List.nodup_append]
  refine ⟨h, List.nodup_singleton p, ?_⟩
  intro x hx hx2
  rcases List.mem_singleton.1 hx2 with rfl
  exact hp hx

theorem process_nodupFB (s : CrawlState) (r : CrawlResult)
    (hnd : (s.failed_pages ++ s.blocked_pages).Nodup)
    (hnm : r.page_num ∉ pagesOf s) :
    ((process_result s r).failed_pages ++ (process_result s r).blocked_pages).Nodup := by
  rw [mem_pagesOf] at hnm
  push_neg at hnm
  rw [List.nodup_append] at hnd
  rcases process_result_failed_blocked s r with ⟨hf, hb⟩ | ⟨hf, hb⟩ | ⟨hf, hb⟩ <;>
    rw [hf, hb]
  · rw [List.nodup_append]
    refine ⟨hnd.1, nodup_append_singleton _ _ hnd.2.1 hnm.2.2, ?_⟩
    intro x hxf hxb
    rcases List.mem_append.1 hxb with hx | hx
    · exact hnd.2.2 hxf hx
    · rcases List.mem_singleton.1 hx with rfl
      exact hnm.2.1 hxf
  · exact List.nodup_append.2 hnd
  · rw [List.nodup_append]
    refine ⟨nodup_append_singleton _ _ hnd.1 hnm.2.1, hnd.2.1, ?_⟩
    intro x hxf hxb
    rcases List.mem_append.1 hxf with hx | hx
    · exact hnd.2.2 hx hxb
    · rcases List.mem_singleton.1 hx with rfl
      exact hnm.2.2 hxb

theorem seqGo_pagesOf (sweep : Nat → FetchOutcome) (total : Nat)
    (pages : List Nat) : ∀ (idx : Nat) (s : CrawlState),
    pagesOf (seqGo sweep total idx pages s).1 = pagesOf s ∪ pages.toFinset := by
  induction pages with
  | nil => intro idx s; simp [seqGo]
  | cons page rest ih =>
      intro idx s
      simp only [seqGo]
      rw [ih, pagesOf_process, fetch_page_safe_page_num]
      ext a
      simp
      try tauto

theorem seqGo_nodupFB (sweep : Nat → FetchOutcome) (total : Nat)
    (pages : List Nat) : ∀ (idx : Nat) (s : CrawlState), pages.Nodup →
    (∀ q ∈ pages, q ∉ pagesOf s) →
    (s.failed_pages ++ s.blocked_pages).Nodup →
    ((seqGo sweep total idx pages s).1.failed_pages ++
      (seqGo sweep total idx pages s).1.blocked_pages).Nodup := by
  induction pages with
  | nil => intro idx s _ _ h; simpa [seqGo] using h
  | cons page rest ih =>
      intro idx s hnd hdisj hfb
      simp only [seqGo]
      have hpg : page ∉ pagesOf s := hdisj page (by simp)
      have hpnum : (fetch_page_safe page (sweep page)).page_num = page :=
        fetch_page_safe_page_num page (sweep page)
      apply ih (idx + 1)
      · exact (List.nodup_cons.1 hnd).2
      · intro q hq
        rw [pagesOf_process, hpnum, Finset.mem_insert]
        push_neg
        refine ⟨?_, hdisj q (by simp [hq])⟩
        intro hqe
        subst hqe
        exact (List.nodup_cons.1 hnd).1 hq
      · apply process_nodupFB _ _ hfb
        rw [hpnum]
        exact hpg

theorem retryGoPages_spec (env : Nat → FetchOutcome) (pages : List Nat) :
    ∀ s : CrawlState,
    (retryGoPages env pages s).1.failed_pages = s.failed_pages ∧
    (retryGoPages env pages s).1.blocked_pages = s.blocked_pages ∧
    (retryGoPages env pages s).1.total_cnt = s.total_cnt ∧
    (retryGoPages env pages s).1.successful_pages =
      s.successful_pages ∪ (pages.filter fun p => retryOk (env p)).toFinset ∧
    (retryGoPages env pages s).1.all_auctions =
      s.all_auctions ++ pages.flatMap (fun p => retryItems (env p)) ∧
    (retryGoPages env pages s).2 = pages.flatMap (fun p =>
      [Event.sleep (Delay.twice Delay.requestDelay), Event.fetch p] ++
      (if retryBlockedExc (env p) = true then
        [Event.sleep (Delay.twice Delay.retryDelay)] else [])) := by
  induction pages with
  | nil => intro s; simp [retryGoPages]
  | cons page rest ih =>
      intro s
      simp only [retryGoPages]
      rcases henv : env page with e | ⟨a, pi⟩
      · have hok : retryOk (env page) = false := by rw [henv]; rfl
        have hit : retryItems (env page) = [] := by rw [henv]; rfl
        have hbl : retryBlockedExc (env page) = containsSentinel (excMsg e) := by
          rw [henv]; rfl
        by_cases hcs : containsSentinel (excMsg e) = true
        · simp only [henv, hcs, if_true]
          obtain ⟨h1, h2, h3, h4, h5, h6⟩ := ih s
          refine ⟨h1, h2, h3, ?_, ?_, ?_⟩
          · rw [h4]; simp [hok]
          · rw [h5]; simp [hit]
          · rw [h6]; simp [hbl, hcs]
        · simp only [henv, hcs, if_false, Bool.false_eq_true]
          obtain ⟨h1, h2, h3, h4, h5, h6⟩ := ih s
          refine ⟨h1, h2, h3, ?_, ?_, ?_⟩
          · rw [h4]; simp [hok]
          · rw [h5]; simp [hit]
          · rw [h6]; simp [hbl, hcs]
      · have hok : retryOk (env page) = !a.isEmpty := by rw [henv]; rfl
        have hit : retryItems (env page) = a := by rw [henv]; rfl
        have hbl : retryBlockedExc (env page) = false := by rw [henv]; rfl
        by_cases hae : a.isEmpty = true
        · have ha : a = [] := List.isEmpty_iff.1 hae
          simp only [henv, hae, if_true]
          obtain ⟨h1, h2, h3, h4, h5, h6⟩ := ih s
          refine ⟨h1, h2, h3, ?_, ?_, ?_⟩
          · rw [h4]; simp [hok, hae]
          · rw [h5]; simp [hit, ha]
          · rw [h6]; simp [hbl]
        · simp only [henv, hae, if_false, Bool.false_eq_true]
          obtain ⟨h1, h2, h3, h4, h5, h6⟩ :=
            ih { s with all_auctions := s.all_auctions ++ a,
                        successful_pages := insert page s.successful_pages }
          refine ⟨h1, h2, h3, ?_, ?_, ?_⟩
          · rw [h4]
            simp only [List.filter_cons, hok, hae, Bool.not_false, if_true]
            ext x
            simp [List.mem_filter]
            try tauto
          · rw [h5]; simp [hit]
          · rw [h6]; simp [hbl]

theorem retry_failed_pages_spec (env : Nat → FetchOutcome) (s : CrawlState) :
    (retry_failed_pages env s).1.failed_pages = s.failed_pages ∧
    (retry_failed_pages env s).1.blocked_pages = s.blocked_pages ∧
    (retry_failed_pages env s).1.total_cnt = s.total_cnt ∧
    (retry_failed_pages env s).1.successful_pages = s.successful_pages ∪
      ((s.failed_pages ++ s.blocked_pages).filter fun p => retryOk (env p)).toFinset ∧
    (retry_failed_pages env s).1.all_auctions = s.all_auctions ++
      (s.failed_pages ++ s.blocked_pages).flatMap (fun p => retryItems (env p)) := by
  unfold retry_failed_pages
  by_cases he : (s.failed_pages ++ s.blocked_pages).isEmpty = true
  · have h0 : s.failed_pages ++ s.blocked_pages = [] := List.isEmpty_iff.1 he
    simp [he, h0]
  · simp only [he, if_false, Bool.false_eq_true]
    obtain ⟨h1, h2, h3, h4, h5, h6⟩ :=
      retryGoPages_spec env (s.failed_pages ++ s.blocked_pages) s
    exact ⟨h1, h2, h3, h4, h5⟩

theorem pagesOf_retry (env : Nat → FetchOutcome) (s : CrawlState) :
    pagesOf (retry_failed_pages env s).1 = pagesOf s := by
  obtain ⟨h1, h2, h3, h4, h5⟩ := retry_failed_pages_spec env s
  ext a
  simp only [pagesOf, Finset.mem_union, List.mem_toFinset, h1, h2, h4,
    List.mem_filter, List.mem_append]
  tauto

theorem nodupFB_retry (env : Nat → FetchOutcome) (s : CrawlState)
    (h : (s.failed_pages ++ s.blocked_pages).Nodup) :
    ((retry_failed_pages env s).1.failed_pages ++
      (retry_failed_pages env s).1.blocked_pages).Nodup := by
  obtain ⟨h1, h2, -⟩ := retry_failed_pages_spec env s
  rw [h1, h2]
  exact h

theorem process_blocked_pages_true (s : CrawlState) (r : CrawlResult)
    (h : r.is_blocked = true) :
    (process_result s r).blocked_pages = s.blocked_pages ++ [r.page_num] := by
  unfold process_result
  simp [h]

theorem process_blocked_pages_false (s : CrawlState) (r : CrawlResult)
    (h : r.is_blocked = false) :
    (process_result s r).blocked_pages = s.blocked_pages := by
  unfold process_result
  simp only [h, Bool.false_eq_true, if_false]
  split <;> rfl

theorem run_batch_split (sweep : Nat → FetchOutcome) (pb : Nat) (o2 : List Nat)
    (h2 : (fetch_page_safe pb (sweep pb)).is_blocked = true) (o1 : List Nat) :
    ∀ s : CrawlState, (∀ x ∈ o1, (fetch_page_safe x (sweep x)).is_blocked = false) →
    run_batch sweep (o1 ++ pb :: o2) s =
      ((o1 ++ [pb]).foldl
          (fun acc x => process_result acc (fetch_page_safe x (sweep x))) s,
        true, (o1 ++ [pb]).map Event.fetch) := by
  induction o1 with
  | nil =>
      intro s _
      simp [run_batch, h2]
  | cons x o1' ih =>
      intro s h1
      have hx := h1 x (by simp)
      simp only [List.cons_append, run_batch, hx, Bool.false_eq_true, if_false,
        List.append_eq]
      rw [ih _ (fun y hy => h1 y (by simp [hy]))]
      simp

theorem foldl_process_pagesOf (sweep : Nat → FetchOutcome) (l : List Nat) :
    ∀ s : CrawlState,
    pagesOf (l.foldl
      (fun acc x => process_result acc (fetch_page_safe x (sweep x))) s) =
      pagesOf s ∪ l.toFinset := by
  induction l with
  | nil => intro s; simp
  | cons x xs ih =>
      intro s
      simp only [List.foldl_cons]
      rw [ih, pagesOf_process, fetch_page_safe_page_num]
      ext a
      simp
      try tauto

theorem foldl_process_blocked (sweep : Nat → FetchOutcome) (l : List Nat)
    (h : ∀ x ∈ l, (fetch_page_safe x (sweep x)).is_blocked = false) :
    ∀ s : CrawlState,
    (l.foldl (fun acc x => process_result acc (fetch_page_safe x (sweep x))) s).blocked_pages
      = s.blocked_pages := by
  induction l with
  | nil => intro s; rfl
  | cons x xs ih =>
      intro s
      simp only [List.foldl_cons]
      rw [ih (fun y hy => h y (by simp [hy]))]
      exact process_blocked_pages_false _ _ (h x (by simp))

theorem chunksOf_singleton (n : Nat) (l : List Nat) (h1 : l ≠ [])
    (h2 : l.length ≤ n) : chunksOf n l = [l] := by
  have hl : 0 < l.length := List.length_pos.2 h1
  have hdiv : (l.length + n - 1) / n = 1 := by
    apply Nat.div_eq_of_lt_le
    · omega
    · omega
  have hr1 : List.range 1 = [0] := rfl
  simp [chunksOf, hdiv, hr1, List.take_of_length_le h2]

theorem retryGo_allFail {ε α : Type} (op : Nat → Except ε α) (errs : Nat → ε)
    (b M : ℚ) (h : ∀ k, op k = .error (errs k)) (d : Nat) :
    ∀ attempt : Nat,
      retryGo op b M (attempt + d) attempt =
        (.error (errs (attempt + d)), d + 1,
          (List.range' attempt d).map fun j => min (b * 2 ^ j) M) := by
  induction d with
  | zero =>
      intro attempt
      rw [retryGo, h attempt]
      simp
  | succ d ih =>
      intro attempt
      rw [retryGo, h attempt]
      have hlt : attempt < attempt + (d + 1) := by omega
      simp only [hlt, dif_pos]
      have harr : attempt + (d + 1) = (attempt + 1) + d := by omega
      rw [harr, ih (attempt + 1)]
      simp [List.range'_succ]
      try omega

theorem plannerTotalPages_eq_ceil (t p : Int) (ht : 0 ≤ t) (hp : 0 < p) :
    plannerTotalPages t p = ⌈(t : ℚ) / (p : ℚ)⌉ := by
  have hpne : p ≠ 0 := ne_of_gt hp
  have hfd : (t + p - 1).fdiv p = (t + p - 1) / p :=
    Int.fdiv_eq_ediv _ (le_of_lt hp)
  set q := (t + p - 1) / p with hq
  have h1 : q * p ≤ t + p - 1 := Int.ediv_mul_le (t + p - 1) hpne
  have h2 : t + p - 1 < (q + 1) * p := Int.lt_ediv_add_one_mul_self (t + p - 1) hp
  have h2' : t + p - 1 < q * p + p := by rw [add_mul, one_mul] at h2; exact h2
  have ht1 : t ≤ q * p := by linarith
  have ht2 : (q - 1) * p < t := by rw [sub_mul, one_mul]; linarith
  have hpq : (0 : ℚ) < (p : ℚ) := by exact_mod_cast hp
  have hceil : ⌈(t : ℚ) / (p : ℚ)⌉ = q := by
    rw [Int.ceil_eq_iff]
    constructor
    · rw [lt_div_iff₀ hpq]
      exact_mod_cast ht2
    · rw [div_le_iff₀ hpq]
      exact_mod_cast ht1
  rw [plannerTotalPages, hfd, hceil]

theorem one_le_plannerTotalPages (t p : Int) (ht : 0 < t) (hp : 0 < p) :
    1 ≤ plannerTotalPages t p := by
  unfold plannerTotalPages
  rw [Int.fdiv_eq_ediv _ (le_of_lt hp)]
  rw [Int.le_ediv_iff_mul_le hp]
  omega

theorem plannerTotalPages_zero (p : Int) (hp : 0 < p) :
    plannerTotalPages 0 p = 0 := by
  unfold plannerTotalPages
  rw [Int.fdiv_eq_ediv _ (le_of_lt hp)]
  have h0 : (0 : Int) + p - 1 = p - 1 := by ring
  rw [h0]
  exact Int.ediv_eq_zero_of_lt (by omega) (by omega)

/-! Claim theorems. -/

/-- C4: for an operation that throws on every attempt,
`retry_with_backoff(op, max_retries, base_delay, max_delay)` invokes the
operation exactly `max_retries + 1` times, re-raises the operation's last
error unchanged, and the delay slept after failed attempt `k` (0-indexed,
hence before attempt `k + 1`) is `min(base_delay * 2 ^ k, max_delay)`. -/
theorem C4_retry_exhaustion {ε α : Type} (op : Nat → Except ε α)
    (errs : Nat → ε) (max_retries : Nat) (base_delay max_delay : ℚ)
    (h : ∀ k, op k = .error (errs k)) :
    retry_with_backoff op max_retries base_delay max_delay =
      (.error (errs max_retries), max_retries + 1,
        (List.range max_retries).map fun k => min (base_delay * 2 ^ k) max_delay) := by
  unfold retry_with_backoff
  have hgo := retryGo_allFail op errs base_delay max_delay h max_retries 0
  simpa [List.range_eq_range'] using hgo

/-- C4 witness: an operation failing with error `7` on every attempt, with
`max_retries = 3`, is invoked `4` times, the final error is `7`, and the
delays are `min(2 * 2^k, 60)` for `k = 0, 1, 2`. -/
theorem C4_retry_exhaustion_witness :
    (∀ k : Nat, (fun _ : Nat => (Except.error 7 : Except Nat Nat)) k =
      .error ((fun _ : Nat => (7 : Nat)) k)) ∧
    retry_with_backoff (fun _ : Nat => (Except.error 7 : Except Nat Nat)) 3 2 60 =
      (.error 7, 3 + 1, (List.range 3).map fun k => min ((2 : ℚ) * 2 ^ k) 60) :=
  ⟨fun _ => rfl,
    C4_retry_exhaustion (fun _ : Nat => (Except.error 7 : Except Nat Nat))
      (fun _ : Nat => (7 : Nat)) 3 2 60 (fun _ => rfl)⟩

/-- C8: for every `totalCount ≥ 0` and `pageSize > 0`, the derived page count
`(totalCount + pageSize - 1) // pageSize` equals `ceil(totalCount / pageSize)`,
both in `_fetch_first_page`'s formula and in `PageInfo.total_pages`. -/
theorem C8_total_pages_ceil (t p : Int) (ht : 0 ≤ t) (hp : 0 < p) :
    plannerTotalPages t p = ⌈(t : ℚ) / (p : ℚ)⌉ ∧
    PageInfo.total_pages ⟨1, p, "Y", some t⟩ = ⌈(t : ℚ) / (p : ℚ)⌉ := by
  have hmain := plannerTotalPages_eq_ceil t p ht hp
  refine ⟨hmain, ?_⟩
  by_cases h0 : t = 0
  · subst h0
    simp [PageInfo.total_pages]
  · have heq : PageInfo.total_pages ⟨1, p, "Y", some t⟩ = plannerTotalPages t p := by
      simp [PageInfo.total_pages, plannerTotalPages, h0]
    rw [heq, hmain]

/-- C8 witness: `totalCount = 401`, `pageSize = 40` gives
`totalPages = ceil(401/40) = 11`. -/
theorem C8_total_pages_ceil_witness :
    (0 : Int) ≤ 401 ∧ (0 : Int) < 40 ∧
    (plannerTotalPages 401 40 = ⌈((401 : Int) : ℚ) / ((40 : Int) : ℚ)⌉ ∧
      PageInfo.total_pages ⟨1, 40, "Y", some 401⟩ =
        ⌈((401 : Int) : ℚ) / ((40 : Int) : ℚ)⌉) ∧
    plannerTotalPages 401 40 = 11 :=
  ⟨by norm_num, by norm_num,
    C8_total_pages_ceil 401 40 (by norm_num) (by norm_num), by decide⟩

/-- C9: `fetch_page_safe` converts every exception into a `CrawlResult`:
a timeout gives `error = "timeout"`, a client error gives its message as
`error`, and any other exception is classified blocked exactly when its text
contains a block sentinel, with `auctions` absent in that case; every
exception result has `is_success = false` and contributes zero items;
`is_blocked` arises only on the sentinel path of the generic handler, so a
timeout or client error whose message contains a sentinel is still classified
as a transport failure; and composed with `fetch_auction_page`, the result is
blocked exactly when `is_blocked_response` holds of the payload. -/
theorem C9_fetch_page_safe_classification (p : Nat) (m : String) (e : FetchExc)
    (items : List Item) (page_info : PageInfoDict) (r : ApiResponse) :
    (fetch_page_safe p (.error .timeout)).error = some "timeout" ∧
    (fetch_page_safe p (.error .timeout)).is_blocked = false ∧
    (fetch_page_safe p (.error (.clientError m))).error = some m ∧
    (fetch_page_safe p (.error (.clientError m))).is_blocked = false ∧
    (fetch_page_safe p (.error (.other m))).is_blocked = containsSentinel m ∧
    (fetch_page_safe p (.error (.other m))).auctions =
      (if containsSentinel m = true then none else some []) ∧
    (fetch_page_safe p (.error (.other m))).error = some m ∧
    (fetch_page_safe p (.ok (items, page_info))).is_blocked = false ∧
    (fetch_page_safe p (.error e)).is_success = false ∧
    (fetch_page_safe p (.error e)).auction_count = 0 ∧
    ((fetch_page_safe p (.error e)).is_blocked = true ↔
      ∃ msg, e = .other msg ∧ containsSentinel msg = true) ∧
    (fetch_page_safe p (fetch_auction_page r)).is_blocked = is_blocked_response r := by
  refine ⟨rfl, rfl, rfl, rfl, ?_, ?_, ?_, rfl, ?_, ?_, ?_, ?_⟩
  · by_cases hcs : containsSentinel m = true <;>
      simp [fetch_page_safe, hcs]
  · by_cases hcs : containsSentinel m = true <;>
      simp [fetch_page_safe, hcs]
  · by_cases hcs : containsSentinel m = true <;>
      simp [fetch_page_safe, hcs]
  · rcases e with _ | m' | m'
    · rfl
    · rfl
    · by_cases hcs : containsSentinel m' = true <;>
        simp [fetch_page_safe, hcs, CrawlResult.is_success]
  · rcases e with _ | m' | m'
    · rfl
    · rfl
    · by_cases hcs : containsSentinel m' = true <;>
        simp [fetch_page_safe, hcs, CrawlResult.auction_count]
  · rcases e with _ | m' | m'
    · simp [fetch_page_safe]
    · simp [fetch_page_safe]
    · by_cases hcs : containsSentinel m' = true <;>
        simp [fetch_page_safe, hcs]
  · by_cases hb : is_blocked_response r = true
    · have hsent : containsSentinel ("API 차단: " ++ responseErrorMessage r) = true := by
        apply containsSentinel_append_left
        decide
      simp [fetch_auction_page, hb, fetch_page_safe, hsent]
    · simp only [Bool.not_eq_true] at hb
      simp [fetch_auction_page, hb, fetch_page_safe]

/-- C10: with `pageSize > 0` and a reported total of 0, the derived page count
is 0 (`PageInfo.total_pages` also returns 0 on `None` or 0 without failing),
so the run fetches no page beyond page 1 and the retry pass is a no-op:
the whole event trace is the single page-1 fetch. -/
theorem C10_zero_total (ps : Int) (items : List Item) (st : CrawlSettings)
    (sweep : Nat → FetchOutcome) (complOrder : List Nat → List Nat)
    (retryFetch : Nat → FetchOutcome) (hp : 0 < ps) :
    PageInfo.total_pages ⟨1, ps, "Y", none⟩ = 0 ∧
    PageInfo.total_pages ⟨1, ps, "Y", some 0⟩ = 0 ∧
    plannerTotalPages 0 ps = 0 ∧
    (runPipeline st (.ok (items, ⟨some 0, some ps⟩)) sweep complOrder
      retryFetch).events = [Event.fetch 1] := by
  have hz := plannerTotalPages_zero ps hp
  have hpne : ps ≠ 0 := ne_of_gt hp
  refine ⟨rfl, by simp [PageInfo.total_pages], hz, ?_⟩
  simp [runPipeline, fetch_first_page, hpne, hz, retry_failed_pages, initState]

/-- C10 witness: `pageSize = 40`, `totalCnt = 0`. -/
theorem C10_zero_total_witness :
    (0 : Int) < 40 ∧
    (PageInfo.total_pages ⟨1, 40, "Y", none⟩ = 0 ∧
      PageInfo.total_pages ⟨1, 40, "Y", some 0⟩ = 0 ∧
      plannerTotalPages 0 40 = 0 ∧
      (runPipeline ⟨40, 1, 3⟩ (.ok ([5], ⟨some 0, some 40⟩))
        (fun _ => .error .timeout) (fun b => b)
        (fun _ => .error .timeout)).events = [Event.fetch 1]) :=
  ⟨by norm_num,
    C10_zero_total 40 [5] ⟨40, 1, 3⟩ (fun _ => .error .timeout) (fun b => b)
      (fun _ => .error .timeout) (by norm_num)⟩

/-- C5 (amended): a main-sweep fetch that fails with a transport error
(timeout or client error) is caught by `fetch_page_safe` on its single
attempt — the `retry_with_backoff` policy is not applied to the page fetch —
and `_process_result` immediately records the page in `failedPages`; the error
never escapes (the result is a non-blocked `CrawlResult`).  The page is only
re-attempted later, in the dedicated retry pass. -/
theorem C5_transport_error_demoted (s : CrawlState) (p : Nat) (m : String) :
    process_result s (fetch_page_safe p (.error .timeout)) =
      { s with failed_pages := s.failed_pages ++ [p] } ∧
    process_result s (fetch_page_safe p (.error (.clientError m))) =
      { s with failed_pages := s.failed_pages ++ [p] } ∧
    p ∈ (process_result s (fetch_page_safe p (.error .timeout))).failed_pages ∧
    p ∈ (process_result s (fetch_page_safe p (.error (.clientError m)))).failed_pages := by
  have h1 : process_result s (fetch_page_safe p (.error .timeout)) =
      { s with failed_pages := s.failed_pages ++ [p] } := by
    simp [process_result, fetch_page_safe, CrawlResult.is_success]
  have h2 : process_result s (fetch_page_safe p (.error (.clientError m))) =
      { s with failed_pages := s.failed_pages ++ [p] } := by
    simp [process_result, fetch_page_safe, CrawlResult.is_success]
  refine ⟨h1, h2, ?_, ?_⟩
  · rw [h1]; simp
  · rw [h2]; simp

/-- C5 counterexample: the claimed inline-retry discipline
(`specClaimInlineRetry`, the spec's wording) is false at a concrete input:
page 2's fetch raises a client error on attempt 0 and would succeed with an
item on attempt 1, `max_retries = 3`, yet the sequential sweep performs only
the single attempt and records page 2 in `failedPages`. -/
theorem C5_counterexample :
    ¬ specClaimInlineRetry ⟨40, 1, 3⟩
        (fun _ k => if k = 0 then .error (.clientError "conn reset")
                    else .ok ([7], ⟨none, none⟩))
        [2] initState := by
  intro h
  have h2 := h 2 (by simp)
    ⟨1, by norm_num, [7], ⟨none, none⟩, rfl, by simp⟩
  apply h2
  decide

/-- C7 (amended): when the page-1 response lacks a total-count field, the run
terminates early — the event trace is just the page-1 fetch, no further page
is attempted — and the page-1 items are persisted via `save` when they are
non-empty; when page 1 returned no items, `save` is not invoked at all. -/
theorem C7_unknown_total (st : CrawlSettings) (items : List Item)
    (page_info : PageInfoDict) (sweep : Nat → FetchOutcome)
    (complOrder : List Nat → List Nat) (retryFetch : Nat → FetchOutcome)
    (h : page_info.totalCnt = none) :
    (runPipeline st (.ok (items, page_info)) sweep complOrder retryFetch).events
      = [Event.fetch 1] ∧
    (runPipeline st (.ok (items, page_info)) sweep complOrder
      retryFetch).state.all_auctions = items ∧
    (runPipeline st (.ok (items, page_info)) sweep complOrder retryFetch).saves
      = (if items.isEmpty then [] else [items]) := by
  by_cases he : items.isEmpty = true
  · have h0 : items = [] := List.isEmpty_iff.1 he
    subst h0
    simp [runPipeline, fetch_first_page, h, initState]
  · simp [runPipeline, fetch_first_page, h, he, initState]

/-- C7 witness: page 1 returns one item and a payload with no `totalCnt`. -/
theorem C7_unknown_total_witness :
    (⟨none, none⟩ : PageInfoDict).totalCnt = none ∧
    ((runPipeline ⟨40, 1, 3⟩ (.ok ([9], ⟨none, none⟩)) (fun _ => .error .timeout)
        (fun b => b) (fun _ => .error .timeout)).events = [Event.fetch 1] ∧
      (runPipeline ⟨40, 1, 3⟩ (.ok ([9], ⟨none, none⟩)) (fun _ => .error .timeout)
        (fun b => b) (fun _ => .error .timeout)).state.all_auctions = [9] ∧
      (runPipeline ⟨40, 1, 3⟩ (.ok ([9], ⟨none, none⟩)) (fun _ => .error .timeout)
        (fun b => b) (fun _ => .error .timeout)).saves
        = (if List.isEmpty [9] then [] else [[9]])) :=
  ⟨rfl, C7_unknown_total ⟨40, 1, 3⟩ [9] ⟨none, none⟩ (fun _ => .error .timeout)
    (fun b => b) (fun _ => .error .timeout) rfl⟩

/-- C7 counterexample: when page 1 lacks `totalCnt` and also returned zero
items, the run makes no `save` call at all — contradicting the claim that
`save` is invoked on whatever page-1 items were retrieved. -/
theorem C7_counterexample :
    (runPipeline ⟨40, 1, 3⟩ (.ok ([], ⟨none, none⟩)) (fun _ => .error .timeout)
      (fun b => b) (fun _ => .error .timeout)).saves = [] ∧
    ¬ ((runPipeline ⟨40, 1, 3⟩ (.ok ([], ⟨none, none⟩)) (fun _ => .error .timeout)
      (fun b => b) (fun _ => .error .timeout)).saves
        = [([] : List Item)]) := by
  constructor
  · decide
  · decide

/-- C2 (amended): at the end of every run, `save` is invoked exactly once
with the aggregated items when at least one item was aggregated (including the
unknown-total early exit), and not at all when nothing was aggregated; in
particular a mismatch between the aggregated count and the server-reported
total never prevents the save — the save decision depends only on whether
`all_auctions` is empty.  (`concurrency_limit ≠ 0` excludes the configuration
on which the Python batched branch would raise `ValueError` from a zero range
step.) -/
theorem C2_save_iff_nonempty (st : CrawlSettings) (firstPage : FetchOutcome)
    (sweep : Nat → FetchOutcome) (complOrder : List Nat → List Nat)
    (retryFetch : Nat → FetchOutcome) (hc : st.concurrency_limit ≠ 0) :
    (runPipeline st firstPage sweep complOrder retryFetch).saves =
      (if (runPipeline st firstPage sweep complOrder
            retryFetch).state.all_auctions.isEmpty
        then []
        else [(runPipeline st firstPage sweep complOrder
                retryFetch).state.all_auctions]) := by
  rcases firstPage with e | ⟨items, pi⟩
  · simp [runPipeline, fetch_first_page, initState]
  · rcases hpc : pi.totalCnt with _ | t
    · by_cases he : items.isEmpty = true
      · have h0 : items = [] := List.isEmpty_iff.1 he
        subst h0
        simp [runPipeline, fetch_first_page, hpc, initState]
      · simp [runPipeline, fetch_first_page, hpc, he, initState]
    · rcases hps : pi.pageSize with _ | p
      · simp [runPipeline, fetch_first_page, hpc, hps, initState]
      · by_cases hp0 : p = 0
        · simp [runPipeline, fetch_first_page, hpc, hps, hp0, initState]
        · simp only [runPipeline, fetch_first_page, hpc, hps, hp0, if_false,
            initState, validate_and_save]

/-- C2 witness: a run with one aggregated item and a count mismatch
(server-reported total 5, one item collected) still saves exactly once. -/
theorem C2_save_iff_nonempty_witness :
    ((⟨40, 1, 3⟩ : CrawlSettings).concurrency_limit ≠ 0) ∧
    (runPipeline ⟨40, 1, 3⟩ (.ok ([3], ⟨some 5, some 40⟩))
        (fun _ => .error .timeout) (fun b => b)
        (fun _ => .error .timeout)).saves =
      (if (runPipeline ⟨40, 1, 3⟩ (.ok ([3], ⟨some 5, some 40⟩))
            (fun _ => .error .timeout) (fun b => b)
            (fun _ => .error .timeout)).state.all_auctions.isEmpty
        then []
        else [(runPipeline ⟨40, 1, 3⟩ (.ok ([3], ⟨some 5, some 40⟩))
                (fun _ => .error .timeout) (fun b => b)
                (fun _ => .error .timeout)).state.all_auctions]) :=
  ⟨by decide,
    C2_save_iff_nonempty ⟨40, 1, 3⟩ (.ok ([3], ⟨some 5, some 40⟩))
      (fun _ => .error .timeout) (fun b => b) (fun _ => .error .timeout)
      (by decide)⟩

/-- C2 counterexample: a run in which page 1 succeeded with zero items (and
`totalCnt = 5` was reported, so the aggregated count mismatches the server
total) ends with no `save` call at all — `save` is not invoked exactly once
on every run. -/
theorem C2_counterexample :
    (runPipeline ⟨40, 1, 3⟩ (.ok ([], ⟨some 5, some 40⟩))
      (fun _ => .error .timeout) (fun b => b)
      (fun _ => .error .timeout)).saves = [] ∧
    ¬ ((runPipeline ⟨40, 1, 3⟩ (.ok ([], ⟨some 5, some 40⟩))
      (fun _ => .error .timeout) (fun b => b)
      (fun _ => .error .timeout)).saves.length = 1) := by
  constructor
  · decide
  · decide

/-- C3 (amended): when `failedPages ++ blockedPages` is non-empty, the retry
pass sleeps the retry delay once, then for each page of
`failedPages ++ blockedPages` in that order sleeps double the normal
inter-request delay and fetches the page exactly once (a single extra pass);
a page whose retry returns non-empty items is added to `successfulPages` and
its items are appended to `allItems` in pass order, but — unlike the claim —
the page is NOT removed from `failedPages`/`blockedPages`, which the pass
leaves unchanged; a page whose retry raises a sentinel (still-blocked) error
only triggers an extra double-retry-delay sleep. -/
theorem C3_retry_pass (env : Nat → FetchOutcome) (s : CrawlState)
    (hne : s.failed_pages ++ s.blocked_pages ≠ []) :
    (retry_failed_pages env s).1.failed_pages = s.failed_pages ∧
    (retry_failed_pages env s).1.blocked_pages = s.blocked_pages ∧
    (retry_failed_pages env s).1.successful_pages = s.successful_pages ∪
      ((s.failed_pages ++ s.blocked_pages).filter
        fun p => retryOk (env p)).toFinset ∧
    (retry_failed_pages env s).1.all_auctions = s.all_auctions ++
      (s.failed_pages ++ s.blocked_pages).flatMap (fun p => retryItems (env p)) ∧
    (retry_failed_pages env s).2 = Event.sleep Delay.retryDelay ::
      (s.failed_pages ++ s.blocked_pages).flatMap (fun p =>
        [Event.sleep (Delay.twice Delay.requestDelay), Event.fetch p] ++
        (if retryBlockedExc (env p) = true then
          [Event.sleep (Delay.twice Delay.retryDelay)] else [])) := by
  have hni : (s.failed_pages ++ s.blocked_pages).isEmpty = false := by
    cases hfb : s.failed_pages ++ s.blocked_pages with
    | nil => exact absurd hfb hne
    | cons a l => rfl
  obtain ⟨h1, h2, h3, h4, h5, h6⟩ :=
    retryGoPages_spec env (s.failed_pages ++ s.blocked_pages) s
  unfold retry_failed_pages
  simp only [hni, Bool.false_eq_true, if_false]
  exact ⟨h1, h2, h4, h5, by rw [h6]⟩

/-- C3 witness: failed pages `[3, 7]`, blocked page `[5]`, every retry
succeeding with one item; the retry pass attempts exactly `[3, 7, 5]` in
order with the specified delays. -/
theorem C3_retry_pass_witness :
    ((⟨[], {1}, [3, 7], [5], 100⟩ : CrawlState).failed_pages ++
      (⟨[], {1}, [3, 7], [5], 100⟩ : CrawlState).blocked_pages ≠ []) ∧
    ((retry_failed_pages (fun pg => .ok ([pg], ⟨none, none⟩))
        ⟨[], {1}, [3, 7], [5], 100⟩).1.failed_pages =
      (⟨[], {1}, [3, 7], [5], 100⟩ : CrawlState).failed_pages ∧
    (retry_failed_pages (fun pg => .ok ([pg], ⟨none, none⟩))
        ⟨[], {1}, [3, 7], [5], 100⟩).1.blocked_pages =
      (⟨[], {1}, [3, 7], [5], 100⟩ : CrawlState).blocked_pages ∧
    (retry_failed_pages (fun pg => .ok ([pg], ⟨none, none⟩))
        ⟨[], {1}, [3, 7], [5], 100⟩).1.successful_pages =
      (⟨[], {1}, [3, 7], [5], 100⟩ : CrawlState).successful_pages ∪
      (((⟨[], {1}, [3, 7], [5], 100⟩ : CrawlState).failed_pages ++
        (⟨[], {1}, [3, 7], [5], 100⟩ : CrawlState).blocked_pages).filter
          fun p => retryOk ((fun pg => .ok ([pg], ⟨none, none⟩)) p)).toFinset ∧
    (retry_failed_pages (fun pg => .ok ([pg], ⟨none, none⟩))
        ⟨[], {1}, [3, 7], [5], 100⟩).1.all_auctions =
      (⟨[], {1}, [3, 7], [5], 100⟩ : CrawlState).all_auctions ++
      ((⟨[], {1}, [3, 7], [5], 100⟩ : CrawlState).failed_pages ++
        (⟨[], {1}, [3, 7], [5], 100⟩ : CrawlState).blocked_pages).flatMap
          (fun p => retryItems ((fun pg => .ok ([pg], ⟨none, none⟩)) p)) ∧
    (retry_failed_pages (fun pg => .ok ([pg], ⟨none, none⟩))
        ⟨[], {1}, [3, 7], [5], 100⟩).2 = Event.sleep Delay.retryDelay ::
      ((⟨[], {1}, [3, 7], [5], 100⟩ : CrawlState).failed_pages ++
        (⟨[], {1}, [3, 7], [5], 100⟩ : CrawlState).blocked_pages).flatMap
          (fun p =>
            [Event.sleep (Delay.twice Delay.requestDelay), Event.fetch p] ++
            (if retryBlockedExc ((fun pg => .ok ([pg], ⟨none, none⟩)) p) = true
              then [Event.sleep (Delay.twice Delay.retryDelay)] else []))) :=
  ⟨by decide,
    C3_retry_pass (fun pg => .ok ([pg], ⟨none, none⟩))
      ⟨[], {1}, [3, 7], [5], 100⟩ (by decide)⟩

/-- C3 counterexample: with failed pages `[3, 7]` and blocked page `[5]` and
every retry succeeding, page 3 is added to `successfulPages` yet remains in
`failedPages` — the claim's "removed from the failed/blocked sets" is false. -/
theorem C3_counterexample :
    3 ∈ (retry_failed_pages (fun pg => .ok ([pg], ⟨none, none⟩))
          ⟨[], {1}, [3, 7], [5], 100⟩).1.successful_pages ∧
    3 ∈ (retry_failed_pages (fun pg => .ok ([pg], ⟨none, none⟩))
          ⟨[], {1}, [3, 7], [5], 100⟩).1.failed_pages := by
  constructor
  · decide
  · decide

/-- C6 (amended): in batched-concurrent mode (one batch here, batch size
`3 × concurrencyLimit`), when the completion order is `o1 ++ pb :: o2` with
the tasks of `o1` not blocked and `pb` blocked, the batch stops at `pb`: the
final state is the fold of exactly the processed prefix `o1 ++ [pb]` (pages
resolved before the block retain their items), the cooldown sleep is applied
exactly once for the batch, `pb` is appended to `blockedPages`, and a
cancelled task's page `q ∈ o2` contributes zero items and — unlike the
claim — is recorded in NO collection at all (not in `failedPages` either),
so it does NOT fall through to the retry phase. -/
theorem C6_batched_block_cancel (st : CrawlSettings) (sweep : Nat → FetchOutcome)
    (complOrder : List Nat → List Nat) (pages : List Nat) (s : CrawlState)
    (o1 : List Nat) (pb : Nat) (o2 : List Nat) (q : Nat)
    (hne : pages ≠ []) (hlen : pages.length ≤ st.concurrency_limit * 3)
    (hord : complOrder pages = o1 ++ pb :: o2)
    (h1 : ∀ x ∈ o1, (fetch_page_safe x (sweep x)).is_blocked = false)
    (h2 : (fetch_page_safe pb (sweep pb)).is_blocked = true)
    (hq2 : q ∈ o2) (hqs : q ∉ pagesOf s) (hq1 : q ∉ o1) (hqb : q ≠ pb) :
    (fetch_batched st sweep complOrder pages s).1 =
      (o1 ++ [pb]).foldl
        (fun acc x => process_result acc (fetch_page_safe x (sweep x))) s ∧
    (fetch_batched st sweep complOrder pages s).2 =
      (o1 ++ [pb]).map Event.fetch ++ [Event.sleep Delay.blockedWait] ∧
    q ∉ pagesOf (fetch_batched st sweep complOrder pages s).1 ∧
    (fetch_batched st sweep complOrder pages s).1.blocked_pages =
      s.blocked_pages ++ [pb] ∧
    ((fetch_batched st sweep complOrder pages s).2.filter
        (fun ev => ev == Event.sleep Delay.blockedWait)).length = 1 := by
  have hch := chunksOf_singleton (st.concurrency_limit * 3) pages hne hlen
  have hrb := run_batch_split sweep pb o2 h2 o1 s h1
  have hfb : fetch_batched st sweep complOrder pages s =
      ((o1 ++ [pb]).foldl
          (fun acc x => process_result acc (fetch_page_safe x (sweep x))) s,
        (o1 ++ [pb]).map Event.fetch ++ [Event.sleep Delay.blockedWait]) := by
    unfold fetch_batched
    rw [hch]
    simp only [batchGo, hord, hrb]
    simp
  refine ⟨by rw [hfb], by rw [hfb], ?_, ?_, ?_⟩
  · rw [hfb]
    rw [foldl_process_pagesOf]
    simp only [Finset.mem_union, List.mem_toFinset, List.mem_append,
      List.mem_singleton]
    push_neg
    exact ⟨hqs, hq1, hqb⟩
  · rw [hfb]
    rw [List.foldl_append, List.foldl_cons, List.foldl_nil]
    rw [process_blocked_pages_true _ _ h2, fetch_page_safe_page_num,
      foldl_process_blocked sweep o1 h1]
  · rw [hfb]
    have hnof : ((o1 ++ [pb]).map Event.fetch).filter
        (fun ev => ev == Event.sleep Delay.blockedWait) = [] := by
      rw [List.filter_eq_nil_iff]
      intro ev hev
      obtain ⟨x, hx, hxe⟩ := List.mem_map.1 hev
      subst hxe
      simp
    rw [List.filter_append, hnof]
    simp

/-- C6 witness: `concurrencyLimit = 2` (batch size 6), pages 2–7, completion
order `[2, 4, 3, 5, 6, 7]` with page 4 blocked: page 2 resolved first and
keeps its item, pages 3, 5, 6, 7 are cancelled, the cooldown fires once. -/
theorem C6_batched_block_cancel_witness :
    (([2, 3, 4, 5, 6, 7] : List Nat) ≠ []) ∧
    (([2, 3, 4, 5, 6, 7] : List Nat).length ≤
      (⟨40, 2, 3⟩ : CrawlSettings).concurrency_limit * 3) ∧
    ((fun _ : List Nat => [2, 4, 3, 5, 6, 7]) [2, 3, 4, 5, 6, 7] =
      [2] ++ 4 :: [3, 5, 6, 7]) ∧
    (∀ x ∈ ([2] : List Nat),
      (fetch_page_safe x ((fun p => if p = 4
        then .error (.other "비정상적인 접속이 감지되었습니다")
        else .ok ([p], ⟨none, none⟩)) x)).is_blocked = false) ∧
    ((fetch_page_safe 4 ((fun p => if p = 4
        then .error (.other "비정상적인 접속이 감지되었습니다")
        else .ok ([p], ⟨none, none⟩)) 4)).is_blocked = true) ∧
    ((3 : Nat) ∈ ([3, 5, 6, 7] : List Nat)) ∧
    ((3 : Nat) ∉ pagesOf initState) ∧
    ((3 : Nat) ∉ ([2] : List Nat)) ∧
    ((3 : Nat) ≠ 4) ∧
    ((fetch_batched ⟨40, 2, 3⟩
        (fun p => if p = 4 then .error (.other "비정상적인 접속이 감지되었습니다")
          else .ok ([p], ⟨none, none⟩))
        (fun _ : List Nat => [2, 4, 3, 5, 6, 7]) [2, 3, 4, 5, 6, 7] initState).1 =
      ([2] ++ [4]).foldl
        (fun acc x => process_result acc (fetch_page_safe x
          (((fun p => if p = 4 then .error (.other "비정상적인 접속이 감지되었습니다")
            else .ok ([p], ⟨none, none⟩)) : Nat → FetchOutcome) x))) initState ∧
    (fetch_batched ⟨40, 2, 3⟩
        (fun p => if p = 4 then .error (.other "비정상적인 접속이 감지되었습니다")
          else .ok ([p], ⟨none, none⟩))
        (fun _ : List Nat => [2, 4, 3, 5, 6, 7]) [2, 3, 4, 5, 6, 7] initState).2 =
      ([2] ++ [4]).map Event.fetch ++ [Event.sleep Delay.blockedWait] ∧
    (3 : Nat) ∉ pagesOf (fetch_batched ⟨40, 2, 3⟩
        (fun p => if p = 4 then .error (.other "비정상적인 접속이 감지되었습니다")
          else .ok ([p], ⟨none, none⟩))
        (fun _ : List Nat => [2, 4, 3, 5, 6, 7]) [2, 3, 4, 5, 6, 7] initState).1 ∧
    (fetch_batched ⟨40, 2, 3⟩
        (fun p => if p = 4 then .error (.other "비정상적인 접속이 감지되었습니다")
          else .ok ([p], ⟨none, none⟩))
        (fun _ : List Nat => [2, 4, 3, 5, 6, 7]) [2, 3, 4, 5, 6, 7]
        initState).1.blocked_pages = initState.blocked_pages ++ [4] ∧
    ((fetch_batched ⟨40, 2, 3⟩
        (fun p => if p = 4 then .error (.other "비정상적인 접속이 감지되었습니다")
          else .ok ([p], ⟨none, none⟩))
        (fun _ : List Nat => [2, 4, 3, 5, 6, 7]) [2, 3, 4, 5, 6, 7]
        initState).2.filter
          (fun ev => ev == Event.sleep Delay.blockedWait)).length = 1) :=
  ⟨by decide, by decide, by decide, by decide, by decide, by decide, by decide,
    by decide, by decide,
    C6_batched_block_cancel ⟨40, 2, 3⟩
      (fun p => if p = 4 then .error (.other "비정상적인 접속이 감지되었습니다")
        else .ok ([p], ⟨none, none⟩))
      (fun _ : List Nat => [2, 4, 3, 5, 6, 7]) [2, 3, 4, 5, 6, 7] initState
      [2] 4 [3, 5, 6, 7] 3 (by decide) (by decide) (by decide) (by decide)
      (by decide) (by decide) (by decide) (by decide) (by decide)⟩

/-- C6 counterexample: in the same blocked-batch scenario the cancelled
page 3 is NOT recorded as a failed page (nor anywhere else), so it does not
fall through to the retry phase as a failed page as the claim states. -/
theorem C6_counterexample :
    (fetch_batched ⟨40, 2, 3⟩
      (fun p => if p = 4 then .error (.other "비정상적인 접속이 감지되었습니다")
        else .ok ([p], ⟨none, none⟩))
      (fun _ : List Nat => [2, 4, 3, 5, 6, 7]) [2, 3, 4, 5, 6, 7]
      initState).1.failed_pages = [] ∧
    (3 : Nat) ∉ pagesOf (fetch_batched ⟨40, 2, 3⟩
      (fun p => if p = 4 then .error (.other "비정상적인 접속이 감지되었습니다")
        else .ok ([p], ⟨none, none⟩))
      (fun _ : List Nat => [2, 4, 3, 5, 6, 7]) [2, 3, 4, 5, 6, 7]
      initState).1 := by
  constructor
  · decide
  · decide

/-- C1 (amended): for a completed sequential-mode run (`concurrencyLimit = 1`)
whose page-1 response reports `totalCnt > 0` and `pageSize > 0`,
`successfulPages ∪ failedPages ∪ blockedPages` covers `{1..totalPages}`
exactly, and `failedPages` and `blockedPages` are duplicate-free and mutually
disjoint — but, unlike the claim, `successfulPages` may overlap them: a page
that succeeds in the retry pass is added to `successfulPages` without being
removed from `failedPages`/`blockedPages` (see the counterexample, which also
shows the coverage failing in batched mode through cancelled pages and in the
`totalCnt = 0` degenerate case). -/
theorem C1_final_coverage (st : CrawlSettings) (sweep : Nat → FetchOutcome)
    (complOrder : List Nat → List Nat) (retryFetch : Nat → FetchOutcome)
    (items : List Item) (t p : Int)
    (hc : st.concurrency_limit = 1) (ht : 0 < t) (hp : 0 < p) :
    pagesOf (runPipeline st (.ok (items, ⟨some t, some p⟩)) sweep complOrder
        retryFetch).state = Finset.Icc 1 (plannerTotalPages t p).toNat ∧
    ((runPipeline st (.ok (items, ⟨some t, some p⟩)) sweep complOrder
        retryFetch).state.failed_pages ++
      (runPipeline st (.ok (items, ⟨some t, some p⟩)) sweep complOrder
        retryFetch).state.blocked_pages).Nodup := by
  have hpne : p ≠ 0 := ne_of_gt hp
  have htp1 : 1 ≤ plannerTotalPages t p := one_le_plannerTotalPages t p ht hp
  have hffp : fetch_first_page (.ok (items, ⟨some t, some p⟩)) initState =
      (some (plannerTotalPages t p),
        ⟨items, insert 1 ∅, [], [], t⟩, []) := by
    simp [fetch_first_page, initState, hpne]
  by_cases h2 : 1 < plannerTotalPages t p
  · have hstate : (runPipeline st (.ok (items, ⟨some t, some p⟩)) sweep
        complOrder retryFetch).state =
        (retry_failed_pages retryFetch
          (fetch_sequential sweep
            (List.range' 2 ((plannerTotalPages t p) - 1).toNat)
            ⟨items, insert 1 ∅, [], [], t⟩).1).1 := by
      simp only [runPipeline, hffp, hc]
      simp [h2]
    rw [hstate]
    constructor
    · rw [pagesOf_retry]
      unfold fetch_sequential
      rw [seqGo_pagesOf]
      ext a
      simp only [pagesOf, Finset.mem_union, List.mem_toFinset,
        List.toFinset_nil, Finset.mem_insert, Finset.not_mem_empty,
        List.mem_range'_1, Finset.mem_Icc, or_false]
      omega
    · apply nodupFB_retry
      unfold fetch_sequential
      apply seqGo_nodupFB
      · exact List.nodup_range' _ _
      · intro q hq
        rw [List.mem_range'_1] at hq
        simp [pagesOf]
        omega
      · simp
  · have htpe : plannerTotalPages t p = 1 := by omega
    have hstate : (runPipeline st (.ok (items, ⟨some t, some p⟩)) sweep
        complOrder retryFetch).state =
        (retry_failed_pages retryFetch ⟨items, insert 1 ∅, [], [], t⟩).1 := by
      simp only [runPipeline, hffp, hc]
      simp [htpe]
    rw [hstate]
    have hretry : retry_failed_pages retryFetch ⟨items, insert 1 ∅, [], [], t⟩ =
        (⟨items, insert 1 ∅, [], [], t⟩, []) := by
      simp [retry_failed_pages]
    rw [hretry]
    constructor
    · rw [htpe]
      ext a
      simp [pagesOf, Finset.mem_Icc]
      try omega
    · simp

/-- C1 witness: a sequential run over 2 pages (`totalCnt = 80`,
`pageSize = 40`) whose page 2 fails in the sweep and succeeds on retry. -/
theorem C1_final_coverage_witness :
    ((⟨40, 1, 3⟩ : CrawlSettings).concurrency_limit = 1) ∧
    ((0 : Int) < 80) ∧ ((0 : Int) < 40) ∧
    (pagesOf (runPipeline ⟨40, 1, 3⟩ (.ok ([10], ⟨some 80, some 40⟩))
        (fun _ => .error (.clientError "conn")) (fun b => b)
        (fun _ => .ok ([20, 21], ⟨none, none⟩))).state =
      Finset.Icc 1 (plannerTotalPages 80 40).toNat ∧
    ((runPipeline ⟨40, 1, 3⟩ (.ok ([10], ⟨some 80, some 40⟩))
        (fun _ => .error (.clientError "conn")) (fun b => b)
        (fun _ => .ok ([20, 21], ⟨none, none⟩))).state.failed_pages ++
      (runPipeline ⟨40, 1, 3⟩ (.ok ([10], ⟨some 80, some 40⟩))
        (fun _ => .error (.clientError "conn")) (fun b => b)
        (fun _ => .ok ([20, 21], ⟨none, none⟩))).state.blocked_pages).Nodup) :=
  ⟨rfl, by norm_num, by norm_num,
    C1_final_coverage ⟨40, 1, 3⟩ (fun _ => .error (.clientError "conn"))
      (fun b => b) (fun _ => .ok ([20, 21], ⟨none, none⟩)) [10] 80 40 rfl
      (by norm_num) (by norm_num)⟩

/-- C1 counterexample: three concrete completed runs violate the claim as
stated.  (i) Sequential run, `totalPages = 2`: page 2 fails in the sweep and
succeeds on retry, ending in BOTH `successfulPages` and `failedPages` — the
collections overlap, page 2 is not accounted for exactly once.  (ii) Batched
run (`concurrencyLimit = 2`, `totalPages = 7`): page 3 is cancelled after the
block on page 4 and ends in NONE of the three collections although
`3 ∈ {1..7}`.  (iii) `totalCnt = 0`: `totalPages = 0` yet page 1 sits in
`successfulPages`, outside `{1..0} = ∅`. -/
theorem C1_counterexample :
    ((2 : Nat) ∈ (runPipeline ⟨40, 1, 3⟩ (.ok ([10], ⟨some 80, some 40⟩))
        (fun _ => .error (.clientError "conn")) (fun b => b)
        (fun _ => .ok ([20, 21], ⟨none, none⟩))).state.successful_pages ∧
      (2 : Nat) ∈ (runPipeline ⟨40, 1, 3⟩ (.ok ([10], ⟨some 80, some 40⟩))
        (fun _ => .error (.clientError "conn")) (fun b => b)
        (fun _ => .ok ([20, 21], ⟨none, none⟩))).state.failed_pages) ∧
    ((3 : Nat) ∉ pagesOf (runPipeline ⟨40, 2, 3⟩ (.ok ([1], ⟨some 280, some 40⟩))
        (fun p => if p = 4 then .error (.other "차단 감지")
          else .ok ([p], ⟨none, none⟩))
        (fun _ : List Nat => [2, 4, 3, 5, 6, 7])
        (fun _ => .error (.other "차단 감지"))).state ∧
      plannerTotalPages 280 40 = 7) ∧
    ((1 : Nat) ∈ (runPipeline ⟨40, 1, 3⟩ (.ok ([], ⟨some 0, some 40⟩))
        (fun _ => .error .timeout) (fun b => b)
        (fun _ => .error .timeout)).state.successful_pages ∧
      plannerTotalPages 0 40 = 0) := by
  refine ⟨⟨?_, ?_⟩, ⟨?_, ?_⟩, ⟨?_, ?_⟩⟩
  · decide
  · decide
  · decide
  · decide
  · decide
  · decide

end AuctionCrawler
